import Mathlib

/-
  Shallow embedding of the task-list application (TodoList.tsx and
  EditTodoDialog.tsx).  Timestamps (Date.now(), getTime()) are modelled as
  natural numbers of milliseconds; JavaScript truthiness tests on optional
  numeric fields (`t.deadline && ...`) are modelled by `truthyNum`, which is
  false for an absent value and for the value 0, exactly as in JavaScript.
-/

namespace MyTasks

/-- Priority enum from the source: type Priority = "low" | "medium" | "high". -/
inductive Priority where
  | low
  | medium
  | high
  deriving DecidableEq, Repr

/-- Category enum from the source: "work" | "personal" | "shopping" | "health" | "other". -/
inductive Category where
  | work
  | personal
  | shopping
  | health
  | other
  deriving DecidableEq, Repr

/-- The Todo record from the source (interface Todo). Optional fields are Options. -/
structure Todo where
  id : String
  text : String
  completed : Bool
  createdAt : Nat
  completedAt : Option Nat := none
  deadline : Option Nat := none
  priority : Priority
  category : Category
  notes : Option String := none
  deriving DecidableEq, Repr

/-- JavaScript truthiness of an optional numeric field: absent and 0 are falsy. -/
def truthyNum : Option Nat → Bool
  | none => false
  | some n => n != 0

/-- JavaScript String.prototype.trim: strip leading and trailing whitespace. -/
def jsTrim (s : String) : String :=
  String.mk (((s.data.dropWhile Char.isWhitespace).reverse.dropWhile Char.isWhitespace).reverse)

/-- JavaScript String.prototype.toLowerCase, characterwise. -/
def jsToLower (s : String) : String :=
  String.mk (s.data.map Char.toLower)

/-- The addTodo command. The source reads the draft priority and category from
component state whose initial and post-add value is "medium" and "personal";
the draft is therefore modelled with optional priority and category defaulting
to medium and personal. The fresh identifier (crypto.randomUUID()) and the
current time (Date.now()) are passed as parameters. -/
def addTodo (todos : List Todo) (text : String) (deadline : Option Nat)
    (priority : Option Priority) (category : Option Category)
    (now : Nat) (freshId : String) : List Todo :=
  if jsTrim text ≠ "" then
    todos ++ [{ id := freshId
                text := jsTrim text
                completed := false
                createdAt := now
                deadline := deadline
                priority := priority.getD Priority.medium
                category := category.getD Category.personal }]
  else
    todos

/-- The updateTodo command: replace the todo whose id matches the given record. -/
def updateTodo (todos : List Todo) (updatedTodo : Todo) : List Todo :=
  todos.map fun todo => if todo.id == updatedTodo.id then updatedTodo else todo

/-- The toggleTodo command from the source. -/
def toggleTodo (now : Nat) (id : String) (todos : List Todo) : List Todo :=
  todos.map fun todo =>
    if todo.id == id then
      { todo with
          completed := !todo.completed
          completedAt := if !todo.completed then some now else none }
    else todo

/-- The deleteTodo command from the source. -/
def deleteTodo (id : String) (todos : List Todo) : List Todo :=
  todos.filter fun todo => todo.id != id

/-- handleSave from EditTodoDialog: build the patched record if the edited text
is non-empty after trimming, otherwise do not save. The edited notes become
absent when they trim to the empty string (notes.trim() || undefined). -/
def handleSave (todo : Todo) (text notes : String) (deadline : Option Nat)
    (priority : Priority) (category : Category) : Option Todo :=
  if jsTrim text ≠ "" then
    some { todo with
            text := jsTrim text
            notes := if jsTrim notes = "" then none else some (jsTrim notes)
            deadline := deadline
            priority := priority
            category := category }
  else
    none

/-- Saving an edit through the dialog: handleSave followed by updateTodo when a
record was produced, otherwise no change. -/
def editSave (todos : List Todo) (todo : Todo) (text notes : String)
    (deadline : Option Nat) (priority : Priority) (category : Category) : List Todo :=
  match handleSave todo text notes deadline priority category with
  | some saved => updateTodo todos saved
  | none => todos

/-- One user-visible mutation of the store, as wired in the component:
add, toggle, edit (through the dialog, so the edited record is a member of the
current collection), delete. -/
inductive Step : List Todo → List Todo → Prop where
  | add (todos : List Todo) (text : String) (deadline : Option Nat)
      (priority : Option Priority) (category : Option Category)
      (now : Nat) (freshId : String) :
      Step todos (addTodo todos text deadline priority category now freshId)
  | toggle (todos : List Todo) (id : String) (now : Nat) :
      Step todos (toggleTodo now id todos)
  | edit (todos : List Todo) (todo : Todo) (text notes : String)
      (deadline : Option Nat) (priority : Priority) (category : Category) :
      todo ∈ todos →
      Step todos (editSave todos todo text notes deadline priority category)
  | del (todos : List Todo) (id : String) :
      Step todos (deleteTodo id todos)

/-- States of the store reachable from the empty collection by user commands. -/
inductive Reachable : List Todo → Prop where
  | nil : Reachable []
  | step {s s' : List Todo} : Reachable s → Step s s' → Reachable s'

/-- Status filter: type FilterStatus = "all" | "active" | "completed". -/
inductive FilterStatus where
  | all
  | active
  | completed
  deriving DecidableEq, Repr

/-- The query state of the component: search string, status filter, and the
priority and category filters, where none models the "all" choice. -/
structure Query where
  searchQuery : String
  filterStatus : FilterStatus
  filterPriority : Option Priority
  filterCategory : Option Category
  deriving DecidableEq, Repr

/-- Does the character list hay start with the character list needle. -/
def startsWithChars : List Char → List Char → Bool
  | _, [] => true
  | [], _ :: _ => false
  | c :: cs, d :: ds => c == d && startsWithChars cs ds

/-- Does needle occur as a contiguous run inside hay. -/
def containsChars (hay needle : List Char) : Bool :=
  match hay with
  | [] => startsWithChars [] needle
  | c :: rest => startsWithChars (c :: rest) needle || containsChars rest needle

/-- JavaScript String.prototype.includes: substring containment. -/
def strIncludes (hay needle : String) : Bool :=
  containsChars hay.toList needle.toList

/-- The inner filter shared by activeTodos and completedTodos in the source:
search (skipped when the search string is empty, by truthiness), then the
priority filter, then the category filter. -/
def matchesFilters (q : Query) (t : Todo) : Bool :=
  if q.searchQuery != "" && !(strIncludes (jsToLower t.text) (jsToLower q.searchQuery)) then false
  else if (match q.filterPriority with
           | some p => t.priority != p
           | none => false) then false
  else if (match q.filterCategory with
           | some c => t.category != c
           | none => false) then false
  else true

/-- The priorityOrder table from the comparator: high 0, medium 1, low 2. -/
def priorityOrder : Priority → Int
  | Priority.high => 0
  | Priority.medium => 1
  | Priority.low => 2

/-- The comparator passed to sort for the active list, with JavaScript
truthiness on the optional deadlines. -/
def activeCmp (a b : Todo) : Int :=
  if priorityOrder a.priority ≠ priorityOrder b.priority then
    priorityOrder a.priority - priorityOrder b.priority
  else if truthyNum a.deadline && truthyNum b.deadline then
    (a.deadline.getD 0 : Int) - (b.deadline.getD 0 : Int)
  else if truthyNum a.deadline then -1
  else if truthyNum b.deadline then 1
  else (b.createdAt : Int) - (a.createdAt : Int)

/-- The weak order induced by the comparator: a may stay before b. -/
def activeLe (a b : Todo) : Bool :=
  decide (activeCmp a b ≤ 0)

/-- activeTodos from the source: incomplete tasks, filtered by the query, then
sorted. Array.prototype.sort with a consistent comparator is a stable sort and
is modelled by the stable mergeSort over the induced weak order. -/
def activeTodos (q : Query) (todos : List Todo) : List Todo :=
  ((todos.filter fun t => !t.completed).filter (matchesFilters q)).mergeSort activeLe

/-- completedTodos from the source: completed tasks filtered by the query,
left in storage order. -/
def completedTodos (q : Query) (todos : List Todo) : List Todo :=
  (todos.filter fun t => t.completed).filter (matchesFilters q)

/-- displayedTodos from the source: the list handed to the rendering loop. -/
def displayedTodos (q : Query) (todos : List Todo) : List Todo :=
  match q.filterStatus with
  | FilterStatus.all => activeTodos q todos ++ completedTodos q todos
  | FilterStatus.active => activeTodos q todos
  | FilterStatus.completed => completedTodos q todos

/-- Math.round: round half toward positive infinity. -/
def jsRound (x : ℚ) : Int :=
  ⌊x + 1 / 2⌋

/-- totalTasks statistic. -/
def totalTasks (todos : List Todo) : Nat :=
  todos.length

/-- completedCount statistic. -/
def completedCount (todos : List Todo) : Nat :=
  (todos.filter fun t => t.completed).length

/-- completionRate statistic: the conditional expression from the source. -/
def completionRate (todos : List Todo) : Int :=
  if totalTasks todos > 0 then
    jsRound ((completedCount todos : ℚ) / (totalTasks todos : ℚ) * 100)
  else 0

/-- overdueCount statistic, with JavaScript truthiness on the deadline. -/
def overdueCount (now : Nat) (todos : List Todo) : Nat :=
  (todos.filter fun t =>
    !t.completed && truthyNum t.deadline && decide (t.deadline.getD 0 < now)).length

/-- avgCompletionTime statistic: reduce over the tasks that are completed and
have a truthy completedAt, then divide by the count and by an hour of
milliseconds, then Math.round. -/
def avgCompletionTime (todos : List Todo) : Int :=
  let completed := todos.filter fun t => t.completed && truthyNum t.completedAt
  if completed.length = 0 then 0
  else
    let total : Int :=
      completed.foldl (fun sum t => sum + ((t.completedAt.getD 0 : Int) - (t.createdAt : Int))) 0
    jsRound ((total : ℚ) / (completed.length : ℚ) / (1000 * 60 * 60))

/-- The isOverdue test of a rendered item, with JavaScript truthiness. -/
def isOverdue (t : Todo) (now : Nat) : Bool :=
  truthyNum t.deadline && decide (t.deadline.getD 0 < now) && !t.completed

/-- The spec text for the status filter: all, or matching the completed state. -/
def statusMatches (s : FilterStatus) (t : Todo) : Bool :=
  match s with
  | FilterStatus.all => true
  | FilterStatus.active => !t.completed
  | FilterStatus.completed => t.completed

/-- Written from the spec text: a task passes iff the status filter is all or
matches its completed state, the search string is empty or a case-insensitive
substring of the task text, the priority filter is all or equal, and the
category filter is all or equal. -/
def passesSpec (q : Query) (t : Todo) : Bool :=
  statusMatches q.filterStatus t &&
  (q.searchQuery == "" || strIncludes (jsToLower t.text) (jsToLower q.searchQuery)) &&
  (match q.filterPriority with
   | none => true
   | some p => t.priority == p) &&
  (match q.filterCategory with
   | none => true
   | some c => t.category == c)

/-- The deadline and creation-time part of the composite sort key of the spec:
a present deadline sorts before an absent one, two present deadlines by value,
and remaining ties by createdAt descending. -/
def deadlineKeyLe : Option Nat → Option Nat → Nat → Nat → Bool
  | some da, some db, ca, cb => decide (da < db) || (da == db && decide (cb ≤ ca))
  | some _, none, _, _ => true
  | none, some _, _, _ => false
  | none, none, ca, cb => decide (cb ≤ ca)

/-- Written from the spec text: the composite sort key for active tasks, read
literally (deadline presence is Option presence, and every remaining tie is
broken by createdAt descending). -/
def specKeyLe (a b : Todo) : Bool :=
  decide (priorityOrder a.priority < priorityOrder b.priority) ||
  (priorityOrder a.priority == priorityOrder b.priority &&
    deadlineKeyLe a.deadline b.deadline a.createdAt b.createdAt)

/-- Normalize an optional timestamp by JavaScript truthiness: 0 becomes absent. -/
def normOpt : Option Nat → Option Nat
  | some d => if d = 0 then none else some d
  | none => none

/-- A deadline of 0 is falsy in JavaScript and behaves as absent. -/
def normDeadline (t : Todo) : Option Nat :=
  normOpt t.deadline

/-- The deadline part of the amended composite key: a present deadline sorts
before an absent one, two present deadlines by value with equal values fully
tied, and two absent deadlines by createdAt descending. -/
def deadlineKeyLeAmended : Option Nat → Option Nat → Nat → Nat → Bool
  | some da, some db, _, _ => decide (da < db) || da == db
  | some _, none, _, _ => true
  | none, some _, _, _ => false
  | none, none, ca, cb => decide (cb ≤ ca)

/-- The composite sort key amended to what the comparator computes: a deadline
of 0 counts as absent, and two equal present deadlines are fully tied (left in
input order) instead of being ordered by createdAt. -/
def specKeyLeAmended (a b : Todo) : Bool :=
  decide (priorityOrder a.priority < priorityOrder b.priority) ||
  (priorityOrder a.priority == priorityOrder b.priority &&
    deadlineKeyLeAmended (normDeadline a) (normDeadline b) a.createdAt b.createdAt)

/-- Written from the spec text: overdue iff the task has a deadline, the
deadline is strictly less than the current time, and it is not completed. -/
def overdueSpec (t : Todo) (now : Nat) : Bool :=
  t.deadline.isSome && decide (t.deadline.getD 0 < now) && !t.completed

/-- Written from the spec text: completionRate is the rounding of
completedCount over totalTasks times 100, and 0 for an empty collection. -/
def completionRateSpec (todos : List Todo) : Int :=
  if todos.length = 0 then 0
  else jsRound (((todos.countP fun t => t.completed) : ℚ) / (todos.length : ℚ) * 100)

/-- Written from the spec text: the mean of completedAt minus createdAt over
completed tasks with a completedAt present, divided by an hour in
milliseconds, rounded; 0 when no such task exists. -/
def avgCompletionTimeSpec (todos : List Todo) : Int :=
  let durations :=
    (todos.filter fun t => t.completed && t.completedAt.isSome).map
      (fun t => (t.completedAt.getD 0 : Int) - (t.createdAt : Int))
  if durations.length = 0 then 0
  else jsRound ((durations.sum : ℚ) / (durations.length : ℚ) / 3600000)

/-- The average-completion-time formula amended to the code: a completedAt of 0
is falsy in JavaScript, so such tasks are excluded from the mean. -/
def avgCompletionTimeSpecAmended (todos : List Todo) : Int :=
  let durations :=
    (todos.filter fun t => t.completed && truthyNum t.completedAt).map
      (fun t => (t.completedAt.getD 0 : Int) - (t.createdAt : Int))
  if durations.length = 0 then 0
  else jsRound ((durations.sum : ℚ) / (durations.length : ℚ) / 3600000)

/-- A sample stored task used by concrete witnesses. -/
def sampleTodo : Todo :=
  { id := "a", text := "Buy milk", completed := false, createdAt := 1,
    priority := Priority.medium, category := Category.personal }

/-- A stored completed task used by concrete counterexamples. -/
def completedSample : Todo :=
  { id := "c", text := "done", completed := true, createdAt := 0, completedAt := some 5,
    priority := Priority.high, category := Category.work }

/-- A task with a deadline of 0, used by concrete counterexamples. -/
def zeroDeadlineSample : Todo :=
  { id := "z", text := "zero", completed := false, createdAt := 0, deadline := some 0,
    priority := Priority.low, category := Category.other }

/-- The four-task example collection of the spec: one completed task created
at 0 and completed at 7200000 ms, three incomplete tasks. -/
def statsExample : List Todo :=
  [{ id := "s1", text := "one", completed := true, createdAt := 0, completedAt := some 7200000,
     priority := Priority.medium, category := Category.personal },
   { id := "s2", text := "two", completed := false, createdAt := 0,
     priority := Priority.medium, category := Category.personal },
   { id := "s3", text := "three", completed := false, createdAt := 0,
     priority := Priority.medium, category := Category.personal },
   { id := "s4", text := "four", completed := false, createdAt := 0,
     priority := Priority.medium, category := Category.personal }]

/-- A collection containing a completed task with completedAt 0, used by the
concrete counterexample on the average completion time. -/
def avgCex : List Todo :=
  [{ id := "p", text := "p", completed := true, createdAt := 0, completedAt := some 0,
     priority := Priority.low, category := Category.other },
   { id := "q", text := "q", completed := true, createdAt := 0, completedAt := some 7200000,
     priority := Priority.low, category := Category.other }]

/-- The query with no search text and every filter set to all. -/
def qAll : Query :=
  { searchQuery := "", filterStatus := FilterStatus.all,
    filterPriority := none, filterCategory := none }

/-- Example task A of the spec sorting example: high priority, no deadline,
created at time 1. -/
def exA : Todo :=
  { id := "A", text := "task a", completed := false, createdAt := 1,
    priority := Priority.high, category := Category.personal }

/-- Example task B of the spec sorting example: high priority, deadline 5. -/
def exB : Todo :=
  { id := "B", text := "task b", completed := false, createdAt := 2, deadline := some 5,
    priority := Priority.high, category := Category.personal }

/-- Example task C of the spec sorting example: medium priority, deadline 1. -/
def exC : Todo :=
  { id := "C", text := "task c", completed := false, createdAt := 3, deadline := some 1,
    priority := Priority.medium, category := Category.personal }

/-- A high-priority task with no deadline created at time 10. -/
def cexLate : Todo :=
  { id := "L", text := "late", completed := false, createdAt := 10,
    priority := Priority.high, category := Category.personal }

/-- A high-priority task with a deadline of 0 created at time 5. -/
def cexZero : Todo :=
  { id := "Z", text := "zero", completed := false, createdAt := 5, deadline := some 0,
    priority := Priority.high, category := Category.personal }

/-- A high-priority task with deadline 100 created at time 5. -/
def cexTieOld : Todo :=
  { id := "T1", text := "tie one", completed := false, createdAt := 5, deadline := some 100,
    priority := Priority.high, category := Category.personal }

/-- A high-priority task with deadline 100 created at time 10. -/
def cexTieNew : Todo :=
  { id := "T2", text := "tie two", completed := false, createdAt := 10, deadline := some 100,
    priority := Priority.high, category := Category.personal }

/-- C2: when the input text trims to the empty string, addTodo leaves the
collection unchanged. -/
theorem add_blank_noop (todos : List Todo) (text : String) (deadline : Option Nat)
    (priority : Option Priority) (category : Option Category) (now : Nat) (freshId : String)
    (h : jsTrim text = "") :
    addTodo todos text deadline priority category now freshId = todos := by
  simp [addTodo, h]

theorem add_blank_noop_witness :
    jsTrim "   " = "" ∧ addTodo [sampleTodo] "   " none none none 7 "b" = [sampleTodo] :=
  ⟨by decide, add_blank_noop [sampleTodo] "   " none none none 7 "b" (by decide)⟩

/-- C9: update and remove with an identifier absent from the collection leave
the collection completely unchanged. -/
theorem update_delete_unknown_noop (todos : List Todo) (u : Todo) (did : String)
    (hu : ∀ t ∈ todos, t.id ≠ u.id) (hd : ∀ t ∈ todos, t.id ≠ did) :
    updateTodo todos u = todos ∧ deleteTodo did todos = todos := by
  constructor
  · unfold updateTodo
    have : ∀ t ∈ todos, (if t.id == u.id then u else t) = t := by
      intro t ht
      simp [hu t ht]
    rw [List.map_congr_left this]
    exact List.map_id' todos
  · unfold deleteTodo
    apply List.filter_eq_self.mpr
    intro t ht
    simp [hd t ht]

theorem update_delete_unknown_noop_witness :
    updateTodo [sampleTodo] { sampleTodo with id := "zzz" } = [sampleTodo] ∧
      deleteTodo "zzz" [sampleTodo] = [sampleTodo] :=
  update_delete_unknown_noop [sampleTodo] { sampleTodo with id := "zzz" } "zzz"
    (by decide) (by decide)

/-- C8 (amended): toggling twice restores the completed flag of every task and
leaves every other task unchanged; the resulting completedAt is absent for an
initially incomplete task, and is the time of the second toggle, not the prior
value, for an initially completed task. -/
theorem toggle_twice (todos : List Todo) (id : String) (now1 now2 : Nat) :
    toggleTodo now2 id (toggleTodo now1 id todos) =
      todos.map (fun t =>
        if t.id == id then
          (if t.completed then { t with completedAt := some now2 }
           else { t with completedAt := none })
        else t) := by
  unfold toggleTodo
  rw [List.map_map]
  apply List.map_congr_left
  intro t _
  cases hid : (t.id == id) with
  | false => simp [Function.comp, hid]
  | true => cases hc : t.completed <;> simp [Function.comp, hid, hc]

/-- C8 counterexample: an initially completed task is not returned to its
original state by two toggles, because completedAt becomes the time of the
second toggle instead of the stored value. -/
theorem toggle_twice_cex :
    toggleTodo 20 "c" (toggleTodo 10 "c" [completedSample]) ≠ [completedSample] := by
  decide

/-- C1: in every reachable state of the store, a task is completed if and only
if its completedAt is present; every command preserves this invariant. -/
theorem completed_iff_completedAt (s : List Todo) (hs : Reachable s) :
    ∀ t ∈ s, t.completed = true ↔ t.completedAt.isSome = true := by
  induction hs with
  | nil => simp
  | step _ hstep ih =>
    cases hstep with
    | add text dl pr cat now fresh =>
      intro t ht
      unfold addTodo at ht
      split at ht
      · rcases List.mem_append.mp ht with h | h
        · exact ih t h
        · simp only [List.mem_singleton] at h
          subst h
          simp
      · exact ih t ht
    | toggle tid now =>
      intro t ht
      unfold toggleTodo at ht
      rcases List.mem_map.mp ht with ⟨u, hu, rfl⟩
      cases hid : (u.id == tid) with
      | false => simpa [hid] using ih u hu
      | true => cases hc : u.completed <;> simp [hid, hc]
    | edit todo text notes dl pr cat hmem =>
      intro t ht
      unfold editSave at ht
      cases hsv : handleSave todo text notes dl pr cat with
      | none =>
        rw [hsv] at ht
        exact ih t ht
      | some saved =>
        rw [hsv] at ht
        unfold updateTodo at ht
        rcases List.mem_map.mp ht with ⟨u, hu, rfl⟩
        cases hid : (u.id == saved.id) with
        | false => simpa [hid] using ih u hu
        | true =>
          have hsaved : saved.completed = todo.completed ∧ saved.completedAt = todo.completedAt := by
            unfold handleSave at hsv
            split at hsv
            · cases hsv
              exact ⟨rfl, rfl⟩
            · cases hsv
          simp only [hid, if_true]
          rw [hsaved.1, hsaved.2]
          exact ih todo hmem
    | del tid =>
      intro t ht
      exact ih t (List.mem_of_mem_filter ht)

theorem completed_iff_completedAt_witness :
    ({ id := "a", text := "hi", completed := true, createdAt := 0, completedAt := some 5,
       priority := Priority.medium, category := Category.personal } : Todo).completed = true ↔
      ({ id := "a", text := "hi", completed := true, createdAt := 0, completedAt := some 5,
         priority := Priority.medium, category := Category.personal } : Todo).completedAt.isSome = true :=
  completed_iff_completedAt _
    (Reachable.step (Reachable.step Reachable.nil (Step.add [] "hi" none none none 0 "a"))
      (Step.toggle _ "a" 5)) _ (by decide)

/-- C3: for text that trims non-empty, addTodo appends exactly one task with
the trimmed text, completed false, createdAt the current time, no completedAt,
the supplied deadline, the fresh identifier (unique when the generator avoids
existing identifiers), priority defaulting to medium and category to personal
when the draft omits them, and leaves all existing tasks unchanged. -/
theorem add_appends_one (todos : List Todo) (text : String) (deadline : Option Nat)
    (priority : Option Priority) (category : Option Category) (now : Nat) (freshId : String)
    (h : jsTrim text ≠ "") (hfresh : ∀ t ∈ todos, t.id ≠ freshId) :
    ∃ nt : Todo,
      addTodo todos text deadline priority category now freshId = todos ++ [nt] ∧
      nt.text = jsTrim text ∧
      nt.completed = false ∧
      nt.createdAt = now ∧
      nt.completedAt = none ∧
      nt.deadline = deadline ∧
      nt.id = freshId ∧
      (∀ t ∈ todos, t.id ≠ nt.id) ∧
      nt.priority = priority.getD Priority.medium ∧
      nt.category = category.getD Category.personal ∧
      nt.notes = none := by
  refine ⟨{ id := freshId, text := jsTrim text, completed := false, createdAt := now,
            deadline := deadline, priority := priority.getD Priority.medium,
            category := category.getD Category.personal },
          ?_, rfl, rfl, rfl, rfl, rfl, rfl, hfresh, rfl, rfl, rfl⟩
  simp [addTodo, h]

theorem add_appends_one_witness :
    addTodo [sampleTodo] " Walk dog " none none none 9 "b" =
      [sampleTodo,
       { id := "b", text := "Walk dog", completed := false, createdAt := 9,
         priority := Priority.medium, category := Category.personal }] := by
  obtain ⟨nt, heq, ht, hc, hca, hcat, hdl, hid, _, hp, hcg, hn⟩ :=
    add_appends_one [sampleTodo] " Walk dog " none none none 9 "b" (by decide) (by decide)
  rw [heq]
  have hnt : nt = { id := "b", text := "Walk dog", completed := false, createdAt := 9,
                    priority := Priority.medium, category := Category.personal } := by
    have htval : jsTrim " Walk dog " = "Walk dog" := by decide
    rw [htval] at ht
    cases nt
    simp_all
  rw [hnt]
  rfl

/-- C10: saving an edit through the dialog pairs the old and new collections
elementwise so that id, completed, completedAt and createdAt never change, and
every task whose identifier differs from the edited one is unchanged as a
whole record. -/
theorem edit_frame (todos : List Todo) (todo : Todo) (text notes : String)
    (deadline : Option Nat) (priority : Priority) (category : Category)
    (hmem : todo ∈ todos) (hnodup : (todos.map Todo.id).Nodup) :
    List.Forall₂
      (fun u v =>
        (v.id = u.id ∧ v.completed = u.completed ∧ v.completedAt = u.completedAt ∧
          v.createdAt = u.createdAt) ∧
        (u.id ≠ todo.id → v = u))
      todos (editSave todos todo text notes deadline priority category) := by
  unfold editSave
  cases hsv : handleSave todo text notes deadline priority category with
  | none =>
    exact List.forall₂_same.mpr fun u _ => ⟨⟨rfl, rfl, rfl, rfl⟩, fun _ => rfl⟩
  | some saved =>
    have hfields : saved.id = todo.id ∧ saved.completed = todo.completed ∧
        saved.completedAt = todo.completedAt ∧ saved.createdAt = todo.createdAt := by
      unfold handleSave at hsv
      split at hsv
      · cases hsv
        exact ⟨rfl, rfl, rfl, rfl⟩
      · cases hsv
    unfold updateTodo
    rw [List.forall₂_map_right_iff]
    apply List.forall₂_same.mpr
    intro u hu
    cases hid : (u.id == saved.id) with
    | false =>
      refine ⟨⟨rfl, rfl, rfl, rfl⟩, fun _ => rfl⟩
    | true =>
      have hueq : u = todo := by
        have hiq : u.id = todo.id := by
          have : u.id = saved.id := by simpa using hid
          rw [this, hfields.1]
        exact List.inj_on_of_nodup_map hnodup hu hmem hiq
      subst hueq
      simp only [hid, if_true]
      refine ⟨⟨hfields.1, hfields.2.1, hfields.2.2.1, hfields.2.2.2⟩, ?_⟩
      intro hne
      exact absurd rfl hne

theorem edit_frame_witness :
    List.Forall₂
      (fun u v =>
        (v.id = u.id ∧ v.completed = u.completed ∧ v.completedAt = u.completedAt ∧
          v.createdAt = u.createdAt) ∧
        (u.id ≠ sampleTodo.id → v = u))
      [sampleTodo, completedSample]
      (editSave [sampleTodo, completedSample] sampleTodo "New text" "  " (some 99)
        Priority.high Category.work) :=
  edit_frame [sampleTodo, completedSample] sampleTodo "New text" "  " (some 99)
    Priority.high Category.work (by decide) (by decide)

/-- C6 (amended): a task is flagged overdue iff it has a nonzero deadline that
is strictly less than the current time and it is not completed; a deadline of
0 is falsy in JavaScript and behaves as absent. -/
theorem isOverdue_iff (t : Todo) (now : Nat) :
    isOverdue t now = true ↔
      ∃ d, t.deadline = some d ∧ d ≠ 0 ∧ d < now ∧ t.completed = false := by
  rcases hd : t.deadline with _ | d <;>
    cases hc : t.completed <;>
      simp [isOverdue, truthyNum, hd, hc]

/-- C6 counterexample: a task with deadline 0 satisfies the spec overdue
predicate at time 5 but the code does not flag it, because a deadline of 0 is
falsy in JavaScript. -/
theorem isOverdue_cex :
    overdueSpec zeroDeadlineSample 5 = true ∧ isOverdue zeroDeadlineSample 5 = false := by
  decide

/-- Folding addition of a projection equals the initial value plus the sum of
the projected list. -/
theorem foldl_add_map_sum (f : Todo → Int) (l : List Todo) (init : Int) :
    l.foldl (fun sum t => sum + f t) init = init + (l.map f).sum := by
  induction l generalizing init with
  | nil => simp
  | cons a l ih => simp [ih, add_assoc]

/-- C7 (amended): the computed statistics agree with the spec formulas, where
the average ranges over completed tasks whose completedAt is present and
nonzero (a completedAt of 0 is falsy in JavaScript); on the four-task example
the completion rate is 25 and the average completion time is 2 hours. -/
theorem stats_formulas :
    (∀ todos : List Todo,
        completionRate todos = completionRateSpec todos ∧
        avgCompletionTime todos = avgCompletionTimeSpecAmended todos) ∧
      completionRate statsExample = 25 ∧ avgCompletionTime statsExample = 2 := by
  refine ⟨fun todos => ⟨?_, ?_⟩, ?_, ?_⟩
  · unfold completionRate completionRateSpec totalTasks completedCount
    rcases Nat.eq_zero_or_pos todos.length with h | h
    · simp [h]
    · rw [if_pos h, if_neg (by omega)]
      congr 2
      rw [List.countP_eq_length_filter]
  · unfold avgCompletionTime avgCompletionTimeSpecAmended
    simp only [List.length_map]
    by_cases h : (todos.filter fun t => t.completed && truthyNum t.completedAt).length = 0
    · simp [h]
    · rw [if_neg h, if_neg h]
      rw [foldl_add_map_sum]
      norm_num
  · norm_num [statsExample, completionRate, totalTasks, completedCount, jsRound,
      List.filter]
  · have h1 : ((7200000 : Nat) != 0) = true := rfl
    norm_num [statsExample, avgCompletionTime, truthyNum, jsRound, List.filter, h1]

/-- C7 counterexample: with a completed task whose completedAt is 0 (present)
the code averages only over the other task and reports 2 hours, while the spec
formula over all completed tasks with completedAt present reports 1 hour. -/
theorem stats_cex :
    avgCompletionTime avgCex = 2 ∧ avgCompletionTimeSpec avgCex = 1 := by
  have h1 : ((7200000 : Nat) != 0) = true := rfl
  have h0 : ((0 : Nat) != 0) = false := rfl
  constructor
  · norm_num [avgCex, avgCompletionTime, truthyNum, jsRound, List.filter, h1, h0]
  · norm_num [avgCex, avgCompletionTimeSpec, jsRound, List.filter]

/-- The if-chain of the source filter equals the conjunction of the three
query conditions. -/
theorem matchesFilters_eq (q : Query) (t : Todo) :
    matchesFilters q t =
      ((q.searchQuery == "" || strIncludes (jsToLower t.text) (jsToLower q.searchQuery)) &&
       (match q.filterPriority with
        | none => true
        | some p => t.priority == p) &&
       (match q.filterCategory with
        | none => true
        | some c => t.category == c)) := by
  rcases q with ⟨s, st, fp, fc⟩
  simp only [matchesFilters, bne]
  cases hs : (s == "") <;>
    cases hi : strIncludes (jsToLower t.text) (jsToLower s) <;>
      rcases fp with _ | p <;>
        rcases fc with _ | c <;>
          simp [hs, hi] <;> (try rfl)

/-- C4: a task appears in the displayed list iff it is stored and passes the
spec filter: status all or matching, search empty or a case-insensitive
substring of the text, priority all or equal, category all or equal. -/
theorem displayed_mem_iff (q : Query) (todos : List Todo) (t : Todo) :
    t ∈ displayedTodos q todos ↔ (t ∈ todos ∧ passesSpec q t = true) := by
  have hm := matchesFilters_eq q t
  rcases hst : q.filterStatus with _ | _ | _ <;>
    cases hc : t.completed <;>
      simp [displayedTodos, activeTodos, completedTodos, passesSpec, statusMatches, hst,
        List.mem_filter, hm, hc]

/-- The comparator branch structure, characterized: nonpositive comparison
result coincides with the amended composite key relation. -/
theorem cmp_le_char (pa pb : Int) (da db : Option Nat) (ca cb : Nat) :
    decide ((if pa ≠ pb then pa - pb
             else if truthyNum da && truthyNum db then (da.getD 0 : Int) - (db.getD 0 : Int)
             else if truthyNum da then -1
             else if truthyNum db then 1
             else (cb : Int) - (ca : Int)) ≤ 0)
      = (decide (pa < pb) ||
          (pa == pb && deadlineKeyLeAmended (normOpt da) (normOpt db) ca cb)) := by
  by_cases hp : pa = pb
  · subst hp
    rcases da with _ | d1 <;> rcases db with _ | d2
    · rw [Bool.eq_iff_iff]
      simp [truthyNum, normOpt, deadlineKeyLeAmended]
    · by_cases h2 : d2 = 0 <;>
        rw [Bool.eq_iff_iff] <;>
        simp [truthyNum, normOpt, deadlineKeyLeAmended, h2]
    · by_cases h1 : d1 = 0 <;>
        rw [Bool.eq_iff_iff] <;>
        simp [truthyNum, normOpt, deadlineKeyLeAmended, h1]
    · by_cases h1 : d1 = 0 <;> by_cases h2 : d2 = 0 <;>
        rw [Bool.eq_iff_iff] <;>
        simp [truthyNum, normOpt, deadlineKeyLeAmended, h1, h2] <;> omega
  · have hb : (pa == pb) = false := by
      simpa using hp
    rw [Bool.eq_iff_iff]
    simp [hp, hb]
    omega

/-- The weak order of the comparator equals the amended composite key. -/
theorem activeLe_eq (a b : Todo) :
    activeLe a b = specKeyLeAmended a b := by
  have h := cmp_le_char (priorityOrder a.priority) (priorityOrder b.priority)
    a.deadline b.deadline a.createdAt b.createdAt
  simpa [activeLe, activeCmp, specKeyLeAmended, normDeadline] using h

/-- Totality of the amended deadline key. -/
theorem dKL_total (x y : Option Nat) (ca cb : Nat) :
    (deadlineKeyLeAmended x y ca cb || deadlineKeyLeAmended y x cb ca) = true := by
  rcases x with _ | d1 <;> rcases y with _ | d2 <;>
    simp [deadlineKeyLeAmended] <;> omega

/-- Transitivity of the amended deadline key. -/
theorem dKL_trans (x y z : Option Nat) (ca cb cc : Nat)
    (h1 : deadlineKeyLeAmended x y ca cb = true)
    (h2 : deadlineKeyLeAmended y z cb cc = true) :
    deadlineKeyLeAmended x z ca cc = true := by
  rcases x with _ | d1 <;> rcases y with _ | d2 <;> rcases z with _ | d3 <;>
    simp [deadlineKeyLeAmended] at h1 h2 ⊢ <;> omega

/-- Totality of the amended composite key. -/
theorem specKeyLeAmended_total (a b : Todo) :
    (specKeyLeAmended a b || specKeyLeAmended b a) = true := by
  unfold specKeyLeAmended
  rw [Bool.eq_iff_iff]
  simp only [Bool.or_eq_true, Bool.and_eq_true, decide_eq_true_eq, beq_iff_eq]
  have hd := dKL_total (normDeadline a) (normDeadline b) a.createdAt b.createdAt
  rw [Bool.or_eq_true] at hd
  constructor
  · intro
    trivial
  · intro
    rcases lt_trichotomy (priorityOrder a.priority) (priorityOrder b.priority) with h | h | h
    · exact Or.inl (Or.inl h)
    · rcases hd with hd | hd
      · exact Or.inl (Or.inr ⟨h, hd⟩)
      · exact Or.inr (Or.inr ⟨h.symm, hd⟩)
    · exact Or.inr (Or.inl h)

/-- Transitivity of the amended composite key. -/
theorem specKeyLeAmended_trans (a b c : Todo)
    (h1 : specKeyLeAmended a b = true) (h2 : specKeyLeAmended b c = true) :
    specKeyLeAmended a c = true := by
  unfold specKeyLeAmended at h1 h2 ⊢
  simp only [Bool.or_eq_true, Bool.and_eq_true, decide_eq_true_eq, beq_iff_eq] at h1 h2 ⊢
  rcases h1 with h1 | ⟨h1e, h1d⟩
  · rcases h2 with h2 | ⟨h2e, h2d⟩
    · exact Or.inl (by omega)
    · exact Or.inl (by omega)
  · rcases h2 with h2 | ⟨h2e, h2d⟩
    · exact Or.inl (by omega)
    · exact Or.inr ⟨by omega, dKL_trans _ _ _ _ _ _ h1d h2d⟩

/-- Evaluation of the stable merge sort on a two-element list. -/
theorem mergeSort_two {α : Type} (le : α → α → Bool) (a b : α) :
    List.mergeSort [a, b] le = if le a b then [a, b] else [b, a] := by
  rw [List.mergeSort]
  simp [List.merge]

/-- Evaluation of the stable merge sort on a three-element list. -/
theorem mergeSort_three {α : Type} (le : α → α → Bool) (a b c : α) :
    List.mergeSort [a, b, c] le =
      List.merge (if le a b then [a, b] else [b, a]) [c] le := by
  rw [List.mergeSort]
  simp [mergeSort_two]

/-- C5 (amended): the displayed active list is always sorted ascending by the
composite key with priority rank first, then deadlines where a deadline of 0
counts as absent, present before absent, earlier first and equal present
deadlines fully tied (left in stored order), then createdAt descending among
tasks without deadlines; on the example tasks the order is B, A, C. -/
theorem active_sorted :
    (∀ (q : Query) (todos : List Todo),
        (activeTodos q todos).Pairwise fun a b => specKeyLeAmended a b = true) ∧
      activeTodos qAll [exA, exB, exC] = [exB, exA, exC] := by
  constructor
  · intro q todos
    have htrans : ∀ a b c : Todo, activeLe a b → activeLe b c → activeLe a c := by
      intro a b c h1 h2
      have := specKeyLeAmended_trans a b c
        (by rw [← activeLe_eq]; exact h1) (by rw [← activeLe_eq]; exact h2)
      rw [activeLe_eq]
      exact this
    have htotal : ∀ a b : Todo, activeLe a b || activeLe b a := by
      intro a b
      rw [activeLe_eq a b, activeLe_eq b a]
      exact specKeyLeAmended_total a b
    have hs : (((todos.filter fun t => !t.completed).filter
        (matchesFilters q)).mergeSort activeLe).Pairwise fun a b => activeLe a b = true :=
      List.sorted_mergeSort htrans htotal _
    exact (hs.imp fun h => by rw [← activeLe_eq]; exact h)
  · have hAB : activeLe exA exB = false := by decide
    have hBC : activeLe exB exC = true := by decide
    have hAC : activeLe exA exC = true := by decide
    unfold activeTodos
    rw [show ((([exA, exB, exC] : List Todo).filter fun t => !t.completed).filter
        (matchesFilters qAll)) = [exA, exB, exC] by decide]
    rw [mergeSort_three, hAB]
    simp [List.merge, hBC, hAC]

/-- C5 counterexample: the displayed active list is not sorted by the literal
composite key of the claim. With a task whose deadline is 0 the code leaves it
after a deadline-less task created later, although the claim orders
deadline-bearing tasks first; and two tasks with the same deadline stay in
stored order, although the claim orders them by createdAt descending. -/
theorem active_sorted_cex :
    ¬ ((activeTodos qAll [cexLate, cexZero]).Pairwise fun a b => specKeyLe a b = true) ∧
    ¬ ((activeTodos qAll [cexTieOld, cexTieNew]).Pairwise fun a b => specKeyLe a b = true) := by
  have e1 : activeTodos qAll [cexLate, cexZero] = [cexLate, cexZero] := by
    unfold activeTodos
    rw [show ((([cexLate, cexZero] : List Todo).filter fun t => !t.completed).filter
        (matchesFilters qAll)) = [cexLate, cexZero] by decide]
    rw [mergeSort_two, show activeLe cexLate cexZero = true by decide]
    simp
  have e2 : activeTodos qAll [cexTieOld, cexTieNew] = [cexTieOld, cexTieNew] := by
    unfold activeTodos
    rw [show ((([cexTieOld, cexTieNew] : List Todo).filter fun t => !t.completed).filter
        (matchesFilters qAll)) = [cexTieOld, cexTieNew] by decide]
    rw [mergeSort_two, show activeLe cexTieOld cexTieNew = true by decide]
    simp
  rw [e1, e2]
  constructor
  · intro hp
    have := List.rel_of_pairwise_cons hp (List.mem_singleton.mpr rfl)
    revert this
    decide
  · intro hp
    have := List.rel_of_pairwise_cons hp (List.mem_singleton.mpr rfl)
    revert this
    decide

end MyTasks
